import Mathlib

/-!
# Verification of the music-player streaming audio engine (src/src/audio.c)

Shallow embedding of the audio decode engine of the Tanmatsu music-player
plugin.  The mutable globals of `audio.c` become a state record
(`AudioState`); calls to the ASP output-sink API (`asp_audio_*`) become an
emitted event list (`SinkEvent`); the external MP3 decoder
(`mp3dec_decode_frame`) is an oracle: each decode-loop iteration is
parametrised by the decoder's response (`FrameResult`) for that call, and a
whole run by a script (a list) of responses.  File I/O is modelled by the
number of unread bytes remaining in the open file (`fileRemaining`); the
byte *values* never influence any control decision in `audio.c` (they are
only handed to the decoder oracle), so they are not tracked.

Machine arithmetic: `size_t`/`uint32_t`/`uint64_t` fields are `Nat`.  The
`uint32_t` cast in `audio_get_position_ms` is modelled explicitly with
`% 2 ^ 32` because it is observable (the position wraps every 2^32 ms).
The `uint64_t` accumulator `g_samples_written` is kept as a plain `Nat`:
it only ever grows by at most 1152 per decoded frame, so 64-bit wraparound
is out of reach of any run the other claims consider.

Log-only debug state of `audio.c` (`g_fill_count`, `g_warned_buffer_low`,
`g_clip_count`, `g_frame_count`, `g_max_sample`, `g_min_sample`,
`g_thread_in_decode` and the calls to `asp_log_*`) is omitted: it feeds
only log messages, never a branch that changes engine state or sink calls.
-/

namespace MusicPlayer

/-- Models `READ_BUFFER_SIZE` of audio.c: 16 KiB ingest buffer capacity. -/
def READ_BUFFER_SIZE : Nat := 16 * 1024

/-- One call into the ASP audio output sink (the `asp_audio_*` API). -/
inductive SinkEvent where
  /-- Models `asp_audio_stop()` -/
  | audioStop : SinkEvent
  /-- Models `asp_audio_set_rate(hz)` -/
  | setRate (hz : Nat) : SinkEvent
  /-- Models `asp_audio_start()` -/
  | audioStart : SinkEvent
  /-- Models `asp_audio_set_amplifier(enabled)` -/
  | setAmplifier (enabled : Bool) : SinkEvent
  /-- Models `asp_audio_set_volume(pct)` (the float argument is an integral percentage) -/
  | setVolume (pct : Nat) : SinkEvent
  /-- Models `asp_audio_write(pcm_buffer, bytes, 500)` -/
  | write (bytes : Nat) : SinkEvent
deriving Repr, DecidableEq

/-- The mutable engine state of audio.c: the `g_*` globals, the ingest
buffer cursors `buffer_pos` / `buffer_len`, and the open-file handle
(modelled as a flag plus the count of unread bytes left in the file). -/
structure AudioState where
  /-- Models `g_playing` -/
  playing : Bool
  /-- Models `g_paused` -/
  paused : Bool
  /-- Models `g_song_finished` -/
  songFinished : Bool
  /-- Models `g_samples_written` (uint64_t) -/
  samplesWritten : Nat
  /-- Models `g_sample_rate` (uint32_t), initially 44100 -/
  sampleRate : Nat
  /-- Models `g_pending_path` (char[256]) -/
  pendingPath : String
  /-- Models `g_new_file_pending` -/
  newFilePending : Bool
  /-- Models `g_thread_should_stop` -/
  threadShouldStop : Bool
  /-- Models `g_format_logged` -/
  formatLogged : Bool
  /-- Models `buffer_pos` (size_t) -/
  bufferPos : Nat
  /-- Models `buffer_len` (size_t) -/
  bufferLen : Nat
  /-- Models `g_current_file != NULL` -/
  fileOpen : Bool
  /-- bytes not yet `fread` from the open file (models the FILE* cursor) -/
  fileRemaining : Nat
deriving Repr, DecidableEq

/-- The decoder oracle's answer to one `mp3dec_decode_frame` call:
the return value (`samples`, non-negative in minimp3) together with the
fields of `mp3dec_frame_info_t` that audio.c reads. -/
structure FrameResult where
  /-- return value of `mp3dec_decode_frame`: PCM samples produced per channel -/
  samples : Nat
  /-- Models `info.frame_bytes`: input bytes consumed -/
  frameBytes : Nat
  /-- Models `info.channels` -/
  channels : Nat
  /-- Models `info.hz`: the frame's sample rate -/
  hz : Nat
deriving Repr, DecidableEq

/-- Compaction phase of `fill_buffer` ("Move remaining data to start of
buffer"): the `memmove` of the unread bytes to offset 0, or the cursor
reset when nothing unread remains. -/
def compact_buffer (s : AudioState) : AudioState :=
  if s.bufferPos > 0 && s.bufferLen > s.bufferPos then
    { s with bufferLen := s.bufferLen - s.bufferPos, bufferPos := 0 }
  else if s.bufferPos > 0 then
    { s with bufferLen := 0, bufferPos := 0 }
  else s

/-- Refill phase of `fill_buffer` ("Read more data"): `fread` as many
bytes as fit into the space left after compaction; the file yields at most
its remaining byte count. -/
def refill_buffer (s : AudioState) : AudioState :=
  let space := READ_BUFFER_SIZE - s.bufferLen
  if space > 0 then
    let bytesRead := min space s.fileRemaining
    { s with
        bufferLen := s.bufferLen + bytesRead,
        fileRemaining := s.fileRemaining - bytesRead }
  else s

/-- Models `fill_buffer` of audio.c: bail out when no file is open, else
compact the unread bytes to offset 0 and `fread` into the remaining
space.  Returns the number of unread bytes (`buffer_len - buffer_pos`)
together with the new state. -/
def fill_buffer (s : AudioState) : Nat × AudioState :=
  if !s.fileOpen then
    (0, s)
  else
    let s2 := refill_buffer (compact_buffer s)
    (s2.bufferLen - s2.bufferPos, s2)

/-- Cursor advance after `mp3dec_decode_frame`:
`if (info.frame_bytes > 0) buffer_pos += info.frame_bytes;` -/
def advance_cursor (frameBytes : Nat) (s : AudioState) : AudioState :=
  if frameBytes > 0 then { s with bufferPos := s.bufferPos + frameBytes } else s

/-- The `if (!g_format_logged)` block run on the first successful decode
of a file: reconfigure the I2S sink (stop / set-rate / start) only when
the frame's rate differs from `g_sample_rate`, then record the rate and
mark the format logged. -/
def apply_format (dec : FrameResult) (s : AudioState) : AudioState × List SinkEvent :=
  if !s.formatLogged then
    ({ s with sampleRate := dec.hz, formatLogged := true },
     if dec.hz ≠ s.sampleRate then
       [SinkEvent.audioStop, SinkEvent.setRate dec.hz, SinkEvent.audioStart]
     else [])
  else (s, [])

/-- Handling of a successful frame (`samples > 0`): first-frame format
handling, then `asp_audio_write` of `samples * channels * sizeof(int16_t)`
bytes and the `g_samples_written += samples` accumulation. -/
def emit_frame (dec : FrameResult) (s : AudioState) : AudioState × List SinkEvent :=
  let fmt := apply_format dec s
  ({ fmt.1 with samplesWritten := fmt.1.samplesWritten + dec.samples },
   fmt.2 ++ [SinkEvent.write (dec.samples * dec.channels * 2)])

/-- One execution of the body of the `while` loop in `decode_loop`, given
the decoder's response `dec` for this iteration's `mp3dec_decode_frame`
call.  Returns the new state, the sink events emitted by this iteration,
and `true` iff the iteration executed a `break`.  (When the iteration
breaks at the EOF test, the decoder is never called and `dec` is unused.) -/
def decode_body (dec : FrameResult) (s : AudioState) : AudioState × List SinkEvent × Bool :=
  let fr := fill_buffer s
  if fr.1 < 4 then
    -- End of file - stop playing to prevent decode_loop being called again
    ({ fr.2 with songFinished := true, playing := false }, [], true)
  else
    let s2 := advance_cursor dec.frameBytes fr.2
    if dec.samples > 0 then
      let em := emit_frame dec s2
      (em.1, em.2, false)
    else if dec.frameBytes = 0 then
      -- Need more data or invalid frame, try to refill
      let fr2 := fill_buffer s2
      if fr2.1 = 0 then
        ({ fr2.2 with songFinished := true, playing := false }, [], true)
      else (fr2.2, [], false)
    else (s2, [], false)

/-- Models `decode_loop` of audio.c, run against a finite script of decoder
responses (one per iteration).  An empty script ends the run without
modelling further iterations.  Returns the final state and the
concatenated sink events of the run. -/
def decode_loop : List FrameResult → AudioState → AudioState × List SinkEvent
  | [], s => (s, [])
  | dec :: rest, s =>
    if s.playing && !s.paused && !s.threadShouldStop then
      let step := decode_body dec s
      if step.2.2 then (step.1, step.2.1)
      else
        let tail := decode_loop rest step.1
        (tail.1, step.2.1 ++ tail.2)
    else (s, [])

/-- Models `start_new_file` of audio.c, run on the decoder thread when it consumes
a pending path.  `openResult` models the `fopen` call: `none` means it
failed, `some n` means the file opened with `n` bytes to read.  `volume`
is `music_player_get_state()->volume`.  (The `mp3dec_init` call resets the
decoder oracle's hidden state and has no footprint here.) -/
def start_new_file (openResult : Option Nat) (volume : Nat) (s : AudioState) :
    AudioState × List SinkEvent :=
  -- Close any existing file
  let s0 := { s with fileOpen := false, fileRemaining := 0 }
  match openResult with
  | none =>
    -- Failed to open: log, clear playing, return
    ({ s0 with playing := false }, [])
  | some n =>
    ({ s0 with
        fileOpen := true, fileRemaining := n,
        bufferPos := 0, bufferLen := 0,
        samplesWritten := 0,
        songFinished := false,
        formatLogged := false,
        paused := false,
        playing := true },
     -- Force I2S channel reset: stop, reconfigure, start; then amplifier + volume
     [SinkEvent.audioStop, SinkEvent.setRate 44100, SinkEvent.audioStart,
      SinkEvent.setAmplifier true, SinkEvent.setVolume volume])

/-- The "check for new file to play" step at the top of
`decoder_thread_func`'s loop: if a file is pending, clear the flag and run
`start_new_file` on the pending path.  `openFor` models `fopen` per path.
The third component reports which path (if any) was opened this poll. -/
def worker_poll (openFor : String → Option Nat) (volume : Nat) (s : AudioState) :
    AudioState × List SinkEvent × Option String :=
  if s.newFilePending then
    let r := start_new_file (openFor s.pendingPath) volume { s with newFilePending := false }
    (r.1, r.2, some s.pendingPath)
  else (s, [], none)

/-- Models `audio_play_file` of audio.c: drop out of any current playback, copy
the path into `g_pending_path` (a `strncpy` into a 256-byte array, so at
most 255 characters are kept), and raise `g_new_file_pending`.  The 30 ms
delay is timing only and has no state footprint. -/
def audio_play_file (path : String) (s : AudioState) : AudioState :=
  { s with
      playing := false,
      paused := false,
      pendingPath := String.mk (path.toList.take 255),
      newFilePending := true }

/-- Models `audio_stop` of audio.c. -/
def audio_stop (s : AudioState) : AudioState × List SinkEvent :=
  ({ s with playing := false, paused := false, newFilePending := false },
   [SinkEvent.setAmplifier false])

/-- Models `audio_pause` of audio.c. -/
def audio_pause (s : AudioState) : AudioState × List SinkEvent :=
  ({ s with paused := true }, [SinkEvent.setAmplifier false])

/-- Models `audio_resume` of audio.c: only acts when a session is playing. -/
def audio_resume (s : AudioState) : AudioState × List SinkEvent :=
  if s.playing then ({ s with paused := false }, [SinkEvent.setAmplifier true])
  else (s, [])

/-- Models `audio_set_volume` of audio.c: clamp the uint8 argument to 100 and
hand it to the sink.  Engine state is untouched. -/
def audio_set_volume (volume : Nat) : List SinkEvent :=
  let v := if volume > 100 then 100 else volume
  [SinkEvent.setVolume v]

/-- Models `audio_is_finished` of audio.c. -/
def audio_is_finished (s : AudioState) : Bool :=
  s.songFinished

/-- Models `audio_get_position_ms` of audio.c:
`(uint32_t)((g_samples_written * 1000ULL) / g_sample_rate)`, guarded
against a zero rate.  The `uint32_t` cast is the `% 2 ^ 32`. -/
def audio_get_position_ms (s : AudioState) : Nat :=
  if s.sampleRate = 0 then 0
  else (s.samplesWritten * 1000 / s.sampleRate) % 2 ^ 32

/-- The engine state right after a successful `audio_init` (all globals at
their static initialisers; `audio_init` itself only allocates). -/
def initState : AudioState :=
  { playing := false, paused := false, songFinished := false,
    samplesWritten := 0, sampleRate := 44100,
    pendingPath := "", newFilePending := false,
    threadShouldStop := false, formatLogged := false,
    bufferPos := 0, bufferLen := 0,
    fileOpen := false, fileRemaining := 0 }

/-- Volume load of `plugin_init` (main.c): the state volume defaults to
100, then a stored setting replaces it only when it lies in [0,100].
`stored` is the int32 read by `asp_plugin_settings_get_int` (`none` when
the key is absent). -/
def plugin_init_volume (stored : Option Int) : Nat :=
  match stored with
  | some v => if 0 ≤ v ∧ v ≤ 100 then v.toNat else 100
  | none => 100

/-- Volume save of `plugin_cleanup` (main.c):
`asp_plugin_settings_set_int(ctx, "volume", g_state.volume)` stores the
uint8 state volume as an int32. -/
def plugin_save_volume (volume : Nat) : Int :=
  (volume : Int)

/-- Persisted round trip: save the state volume at shutdown, read it back
at the next start-up. -/
def volume_round_trip (volume : Nat) : Nat :=
  plugin_init_volume (some (plugin_save_volume volume))

/-- Count of sink reconfigurations in an event trace.  A reconfiguration
is a stop / set-rate / start sequence; each such sequence contains exactly
one `setRate` event, so we count those. -/
def countReconfigs (evs : List SinkEvent) : Nat :=
  (evs.filter fun e => match e with | SinkEvent.setRate _ => true | _ => false).length

/-- The ingest-buffer invariant of claim C10:
`buffer_pos ≤ buffer_len ≤ READ_BUFFER_SIZE`. -/
def BufInv (s : AudioState) : Prop :=
  s.bufferPos ≤ s.bufferLen ∧ s.bufferLen ≤ READ_BUFFER_SIZE

instance (s : AudioState) : Decidable (BufInv s) := by
  unfold BufInv; infer_instance

/-- The playback-position formula as the spec states it:
`position_ms = samplesWritten * 1000 / sampleRateHz` as an unsigned
32-bit value, and 0 if the rate is zero.  (Spec-side definition, to be
compared with `audio_get_position_ms`.) -/
def position_ms_spec (samplesWritten sampleRateHz : Nat) : Nat :=
  if sampleRateHz = 0 then 0
  else (samplesWritten * 1000 / sampleRateHz) % 2 ^ 32

/-! ## Helper lemmas -/

/-- The fields of the engine state that describe the transport, the
format and the counters; the ingest-buffer phases never touch them. -/
theorem compact_buffer_frame (s : AudioState) :
    (compact_buffer s).playing = s.playing ∧
    (compact_buffer s).paused = s.paused ∧
    (compact_buffer s).songFinished = s.songFinished ∧
    (compact_buffer s).samplesWritten = s.samplesWritten ∧
    (compact_buffer s).sampleRate = s.sampleRate ∧
    (compact_buffer s).pendingPath = s.pendingPath ∧
    (compact_buffer s).newFilePending = s.newFilePending ∧
    (compact_buffer s).threadShouldStop = s.threadShouldStop ∧
    (compact_buffer s).formatLogged = s.formatLogged ∧
    (compact_buffer s).fileOpen = s.fileOpen ∧
    (compact_buffer s).fileRemaining = s.fileRemaining := by
  unfold compact_buffer
  split
  · exact ⟨rfl, rfl, rfl, rfl, rfl, rfl, rfl, rfl, rfl, rfl, rfl⟩
  · split
    · exact ⟨rfl, rfl, rfl, rfl, rfl, rfl, rfl, rfl, rfl, rfl, rfl⟩
    · exact ⟨rfl, rfl, rfl, rfl, rfl, rfl, rfl, rfl, rfl, rfl, rfl⟩

/-- Refilling touches only `bufferLen` and the file cursor. -/
theorem refill_buffer_frame (s : AudioState) :
    (refill_buffer s).playing = s.playing ∧
    (refill_buffer s).paused = s.paused ∧
    (refill_buffer s).songFinished = s.songFinished ∧
    (refill_buffer s).samplesWritten = s.samplesWritten ∧
    (refill_buffer s).sampleRate = s.sampleRate ∧
    (refill_buffer s).pendingPath = s.pendingPath ∧
    (refill_buffer s).newFilePending = s.newFilePending ∧
    (refill_buffer s).threadShouldStop = s.threadShouldStop ∧
    (refill_buffer s).formatLogged = s.formatLogged ∧
    (refill_buffer s).fileOpen = s.fileOpen ∧
    (refill_buffer s).bufferPos = s.bufferPos := by
  simp only [refill_buffer]
  split
  · exact ⟨rfl, rfl, rfl, rfl, rfl, rfl, rfl, rfl, rfl, rfl, rfl⟩
  · exact ⟨rfl, rfl, rfl, rfl, rfl, rfl, rfl, rfl, rfl, rfl, rfl⟩

/-- Refilling the ingest buffer touches only the buffer cursors and the
file cursor: every other engine field survives `fill_buffer`. -/
theorem fill_buffer_frame (s : AudioState) :
    (fill_buffer s).2.playing = s.playing ∧
    (fill_buffer s).2.paused = s.paused ∧
    (fill_buffer s).2.songFinished = s.songFinished ∧
    (fill_buffer s).2.samplesWritten = s.samplesWritten ∧
    (fill_buffer s).2.sampleRate = s.sampleRate ∧
    (fill_buffer s).2.pendingPath = s.pendingPath ∧
    (fill_buffer s).2.newFilePending = s.newFilePending ∧
    (fill_buffer s).2.threadShouldStop = s.threadShouldStop ∧
    (fill_buffer s).2.formatLogged = s.formatLogged ∧
    (fill_buffer s).2.fileOpen = s.fileOpen := by
  obtain ⟨c1, c2, c3, c4, c5, c6, c7, c8, c9, c10, -⟩ := compact_buffer_frame s
  obtain ⟨r1, r2, r3, r4, r5, r6, r7, r8, r9, r10, -⟩ := refill_buffer_frame (compact_buffer s)
  unfold fill_buffer
  split
  · exact ⟨rfl, rfl, rfl, rfl, rfl, rfl, rfl, rfl, rfl, rfl⟩
  · dsimp only
    exact ⟨r1.trans c1, r2.trans c2, r3.trans c3, r4.trans c4, r5.trans c5,
      r6.trans c6, r7.trans c7, r8.trans c8, r9.trans c9, r10.trans c10⟩

/-- After compaction the read cursor is at 0 and the valid length is the
previously unread byte count (or anything that was there if the cursor
was already at 0). -/
theorem compact_buffer_pos_zero (s : AudioState) :
    (compact_buffer s).bufferPos = 0 ∨ s.bufferPos = 0 := by
  unfold compact_buffer
  split
  · exact Or.inl rfl
  · split
    · exact Or.inl rfl
    · right
      omega

/-- With an open file, `fill_buffer` leaves the read cursor at 0 and
returns exactly the number of valid bytes in the buffer. -/
theorem fill_buffer_pos_zero (s : AudioState) (h : s.fileOpen = true) :
    (fill_buffer s).2.bufferPos = 0 ∧ (fill_buffer s).1 = (fill_buffer s).2.bufferLen := by
  have hpos : (refill_buffer (compact_buffer s)).bufferPos = 0 := by
    rw [(refill_buffer_frame (compact_buffer s)).2.2.2.2.2.2.2.2.2.2]
    rcases compact_buffer_pos_zero s with h0 | h0
    · exact h0
    · unfold compact_buffer
      rw [h0]
      simpa using h0
  have hfb : fill_buffer s =
      ((refill_buffer (compact_buffer s)).bufferLen - (refill_buffer (compact_buffer s)).bufferPos,
        refill_buffer (compact_buffer s)) := by
    unfold fill_buffer
    simp [h]
  rw [hfb]
  dsimp only
  rw [hpos]
  exact ⟨rfl, by omega⟩

/-- Compaction preserves the buffer invariant. -/
theorem compact_buffer_inv (s : AudioState) (h : BufInv s) : BufInv (compact_buffer s) := by
  obtain ⟨h1, h2⟩ := h
  unfold BufInv compact_buffer
  split
  · exact ⟨Nat.zero_le _, Nat.le_trans (Nat.sub_le _ _) h2⟩
  · split
    · exact ⟨Nat.le_refl 0, Nat.zero_le _⟩
    · exact ⟨h1, h2⟩

/-- Refilling preserves the buffer invariant: the read never exceeds the
space left in the 16 KiB buffer. -/
theorem refill_buffer_inv (s : AudioState) (h : BufInv s) : BufInv (refill_buffer s) := by
  obtain ⟨h1, h2⟩ := h
  unfold BufInv
  simp only [refill_buffer]
  split
  · have hmin := Nat.min_le_left (READ_BUFFER_SIZE - s.bufferLen) s.fileRemaining
    dsimp only
    omega
  · exact ⟨h1, h2⟩

/-- The buffer invariant `bufferPos ≤ bufferLen ≤ READ_BUFFER_SIZE` is
preserved by `fill_buffer`. -/
theorem fill_buffer_inv (s : AudioState) (h : BufInv s) : BufInv (fill_buffer s).2 := by
  unfold fill_buffer
  split
  · exact h
  · exact refill_buffer_inv _ (compact_buffer_inv _ h)

/-- Advancing the read cursor touches no other field. -/
theorem advance_cursor_frame (n : Nat) (s : AudioState) :
    (advance_cursor n s).playing = s.playing ∧
    (advance_cursor n s).paused = s.paused ∧
    (advance_cursor n s).songFinished = s.songFinished ∧
    (advance_cursor n s).samplesWritten = s.samplesWritten ∧
    (advance_cursor n s).sampleRate = s.sampleRate ∧
    (advance_cursor n s).pendingPath = s.pendingPath ∧
    (advance_cursor n s).newFilePending = s.newFilePending ∧
    (advance_cursor n s).threadShouldStop = s.threadShouldStop ∧
    (advance_cursor n s).formatLogged = s.formatLogged ∧
    (advance_cursor n s).fileOpen = s.fileOpen ∧
    (advance_cursor n s).bufferLen = s.bufferLen ∧
    (advance_cursor n s).fileRemaining = s.fileRemaining := by
  unfold advance_cursor
  split
  · exact ⟨rfl, rfl, rfl, rfl, rfl, rfl, rfl, rfl, rfl, rfl, rfl, rfl⟩
  · exact ⟨rfl, rfl, rfl, rfl, rfl, rfl, rfl, rfl, rfl, rfl, rfl, rfl⟩

/-- Once the format of the current file has been logged, the first-frame
block is skipped entirely: no state change, no sink call. -/
theorem apply_format_logged (dec : FrameResult) (s : AudioState) (h : s.formatLogged = true) :
    apply_format dec s = (s, []) := by
  simp [apply_format, h]

/-- On the first successful frame of a file the format block records the
rate, marks the format logged, and reconfigures the sink exactly when the
rate differs from the last recorded one. -/
theorem apply_format_new (dec : FrameResult) (s : AudioState) (h : s.formatLogged = false) :
    apply_format dec s =
      ({ s with sampleRate := dec.hz, formatLogged := true },
       if dec.hz ≠ s.sampleRate then
         [SinkEvent.audioStop, SinkEvent.setRate dec.hz, SinkEvent.audioStart]
       else []) := by
  simp [apply_format, h]

/-- Case analysis of one decode-loop iteration, as seen through the
transport/format fields and the emitted sink events: either nothing
observable happens (no event, format/rate/samples untouched), or a frame
is emitted — with a sink reconfiguration exactly when this is the first
frame of the file and its rate differs from `g_sample_rate`. -/
theorem decode_body_shape (dec : FrameResult) (s : AudioState) :
    ((decode_body dec s).2.1 = [] ∧
      (decode_body dec s).1.formatLogged = s.formatLogged ∧
      (decode_body dec s).1.sampleRate = s.sampleRate ∧
      (decode_body dec s).1.samplesWritten = s.samplesWritten) ∨
    (s.formatLogged = true ∧
      (decode_body dec s).2.1 = [SinkEvent.write (dec.samples * dec.channels * 2)] ∧
      (decode_body dec s).1.formatLogged = true ∧
      (decode_body dec s).1.sampleRate = s.sampleRate ∧
      (decode_body dec s).1.samplesWritten = s.samplesWritten + dec.samples) ∨
    (s.formatLogged = false ∧ dec.hz = s.sampleRate ∧
      (decode_body dec s).2.1 = [SinkEvent.write (dec.samples * dec.channels * 2)] ∧
      (decode_body dec s).1.formatLogged = true ∧
      (decode_body dec s).1.sampleRate = dec.hz ∧
      (decode_body dec s).1.samplesWritten = s.samplesWritten + dec.samples) ∨
    (s.formatLogged = false ∧ dec.hz ≠ s.sampleRate ∧
      (decode_body dec s).2.1 =
        [SinkEvent.audioStop, SinkEvent.setRate dec.hz, SinkEvent.audioStart,
         SinkEvent.write (dec.samples * dec.channels * 2)] ∧
      (decode_body dec s).1.formatLogged = true ∧
      (decode_body dec s).1.sampleRate = dec.hz ∧
      (decode_body dec s).1.samplesWritten = s.samplesWritten + dec.samples) := by
  obtain ⟨-, -, -, f4, f5, -, -, -, f9, -⟩ := fill_buffer_frame s
  obtain ⟨-, -, -, a4, a5, -, -, -, a9, -, -, -⟩ :=
    advance_cursor_frame dec.frameBytes (fill_buffer s).2
  have h4 : (advance_cursor dec.frameBytes (fill_buffer s).2).samplesWritten
      = s.samplesWritten := a4.trans f4
  have h5 : (advance_cursor dec.frameBytes (fill_buffer s).2).sampleRate
      = s.sampleRate := a5.trans f5
  have h9 : (advance_cursor dec.frameBytes (fill_buffer s).2).formatLogged
      = s.formatLogged := a9.trans f9
  obtain ⟨-, -, -, g4, g5, -, -, -, g9, -⟩ :=
    fill_buffer_frame (advance_cursor dec.frameBytes (fill_buffer s).2)
  unfold decode_body
  dsimp only
  split
  · exact Or.inl ⟨rfl, f9, f5, f4⟩
  · split
    · -- dec.samples > 0: a frame is emitted
      by_cases hfmt : s.formatLogged
      · refine Or.inr (Or.inl ⟨hfmt, ?_⟩)
        unfold emit_frame
        rw [apply_format_logged dec _ (h9.trans hfmt)]
        dsimp only
        exact ⟨List.nil_append _, h9.trans hfmt, h5, by rw [h4]⟩
      · rw [Bool.not_eq_true] at hfmt
        by_cases hz : dec.hz = s.sampleRate
        · refine Or.inr (Or.inr (Or.inl ⟨hfmt, hz, ?_⟩))
          unfold emit_frame
          rw [apply_format_new dec _ (h9.trans hfmt)]
          dsimp only
          rw [if_neg (by rw [h5]; simpa using hz)]
          exact ⟨List.nil_append _, rfl, rfl, by rw [h4]⟩
        · refine Or.inr (Or.inr (Or.inr ⟨hfmt, hz, ?_⟩))
          unfold emit_frame
          rw [apply_format_new dec _ (h9.trans hfmt)]
          dsimp only
          rw [if_pos (by rw [h5]; simpa using hz)]
          exact ⟨rfl, rfl, rfl, by rw [h4]⟩
    · split
      · -- zero-consumption stall: refill and retry (or finish)
        split
        · exact Or.inl ⟨rfl, g9.trans h9, g5.trans h5, g4.trans h4⟩
        · exact Or.inl ⟨rfl, g9.trans h9, g5.trans h5, g4.trans h4⟩
      · -- junk skipped (frame_bytes > 0, no samples)
        exact Or.inl ⟨rfl, h9, h5, h4⟩

/-- Reconfiguration counting distributes over trace concatenation. -/
theorem countReconfigs_append (a b : List SinkEvent) :
    countReconfigs (a ++ b) = countReconfigs a + countReconfigs b := by
  simp [countReconfigs, List.filter_append]

/-- Once the format of the current file is logged, the decode loop never
emits another sink reconfiguration, no matter how long it runs. -/
theorem decode_loop_logged (script : List FrameResult) (s : AudioState)
    (h : s.formatLogged = true) :
    countReconfigs (decode_loop script s).2 = 0 ∧
    ∀ r, SinkEvent.setRate r ∉ (decode_loop script s).2 := by
  induction script generalizing s with
  | nil =>
    simp [decode_loop, countReconfigs]
  | cons dec rest ih =>
    unfold decode_loop
    split
    · dsimp only
      rcases decode_body_shape dec s with ⟨he, hf, -, -⟩ | ⟨-, he, hf, -, -⟩
          | ⟨hfmt, -⟩ | ⟨hfmt, -⟩
      · split
        · rw [he]
          simp [countReconfigs]
        · rw [he]
          have := ih (decode_body dec s).1 (hf.trans h)
          simpa [countReconfigs] using this
      · split
        · rw [he]
          simp [countReconfigs]
        · rw [he]
          have := ih (decode_body dec s).1 hf
          constructor
          · rw [countReconfigs_append, this.1]
            simp [countReconfigs]
          · intro r hmem
            rcases List.mem_append.mp hmem with h1 | h1
            · simp at h1
            · exact this.2 r h1
      · rw [h] at hfmt
        exact absurd hfmt (by simp)
      · rw [h] at hfmt
        exact absurd hfmt (by simp)
    · simp [countReconfigs]

/-- While the format of the current file is not yet logged, the decode
loop emits at most one sink reconfiguration, and any rate it configures
differs from the `g_sample_rate` held at loop entry. -/
theorem decode_loop_reconfig_bound (script : List FrameResult) (s : AudioState)
    (h : s.formatLogged = false) :
    countReconfigs (decode_loop script s).2 ≤ 1 ∧
    ∀ r, SinkEvent.setRate r ∈ (decode_loop script s).2 → r ≠ s.sampleRate := by
  induction script generalizing s with
  | nil =>
    simp [decode_loop, countReconfigs]
  | cons dec rest ih =>
    unfold decode_loop
    split
    · dsimp only
      rcases decode_body_shape dec s with ⟨he, hf, hr, -⟩ | ⟨hfmt, -⟩
          | ⟨-, -, he, hf, -, -⟩ | ⟨-, hz, he, hf, -, -⟩
      · split
        · rw [he]
          simp [countReconfigs]
        · rw [he]
          have := ih (decode_body dec s).1 (hf.trans h)
          constructor
          · simpa [countReconfigs] using this.1
          · intro r hmem
            rw [List.nil_append] at hmem
            exact hr ▸ this.2 r hmem
      · rw [h] at hfmt
        exact absurd hfmt (by simp)
      · split
        · rw [he]
          simp [countReconfigs]
        · rw [he]
          have hlog := decode_loop_logged rest (decode_body dec s).1 hf
          constructor
          · rw [countReconfigs_append, hlog.1]
            simp [countReconfigs]
          · intro r hmem
            rcases List.mem_append.mp hmem with h1 | h1
            · simp at h1
            · exact absurd h1 (hlog.2 r)
      · split
        · rw [he]
          constructor
          · simp [countReconfigs]
          · intro r hmem
            have : r = dec.hz := by simpa using hmem
            exact this ▸ hz
        · rw [he]
          have hlog := decode_loop_logged rest (decode_body dec s).1 hf
          constructor
          · rw [countReconfigs_append, hlog.1]
            simp [countReconfigs]
          · intro r hmem
            rcases List.mem_append.mp hmem with h1 | h1
            · have : r = dec.hz := by simpa using h1
              exact this ▸ hz
            · exact absurd h1 (hlog.2 r)
    · simp [countReconfigs]

/-- A path that fits the 256-byte `g_pending_path` array survives the
`strncpy` truncation verbatim. -/
theorem strncpy_id (path : String) (h : path.length ≤ 255) :
    String.mk (path.data.take 255) = path := by
  cases path with
  | mk data => rw [List.take_of_length_le h]

/-- With no file open, `fill_buffer` reports zero bytes and leaves the
state untouched (the early return of audio.c). -/
theorem fill_buffer_closed (s : AudioState) (h : s.fileOpen = false) :
    fill_buffer s = (0, s) := by
  simp [fill_buffer, h]

/-- The first-frame format block never touches the ingest buffer. -/
theorem apply_format_buffer (dec : FrameResult) (s : AudioState) :
    (apply_format dec s).1.bufferPos = s.bufferPos ∧
    (apply_format dec s).1.bufferLen = s.bufferLen := by
  unfold apply_format
  split
  · exact ⟨rfl, rfl⟩
  · exact ⟨rfl, rfl⟩

/-- Emitting a decoded frame never touches the ingest buffer. -/
theorem emit_frame_buffer (dec : FrameResult) (s : AudioState) :
    (emit_frame dec s).1.bufferPos = s.bufferPos ∧
    (emit_frame dec s).1.bufferLen = s.bufferLen := by
  obtain ⟨h1, h2⟩ := apply_format_buffer dec s
  unfold emit_frame
  exact ⟨h1, h2⟩

/-- One decode-loop iteration preserves the buffer invariant, provided
the decoder never reports consuming more bytes than the unread length it
was handed. -/
theorem decode_body_inv (dec : FrameResult) (s : AudioState) (hinv : BufInv s)
    (hle : dec.frameBytes ≤ (fill_buffer s).1) :
    BufInv (decode_body dec s).1 := by
  have hfi := fill_buffer_inv s hinv
  unfold decode_body
  dsimp only
  split
  · exact hfi
  · next h4 =>
    have hopen : s.fileOpen = true := by
      by_contra hno
      have hcl : s.fileOpen = false := by revert hno; cases s.fileOpen <;> simp
      rw [fill_buffer_closed s hcl] at h4
      exact h4 (by norm_num)
    have hpz := fill_buffer_pos_zero s hopen
    have hbi1 : BufInv (advance_cursor dec.frameBytes (fill_buffer s).2) := by
      unfold advance_cursor
      split
      · refine ⟨?_, hfi.2⟩
        have h1 := hpz.1
        have h2 := hpz.2
        show (fill_buffer s).2.bufferPos + dec.frameBytes ≤ (fill_buffer s).2.bufferLen
        omega
      · exact hfi
    split
    · obtain ⟨e1, e2⟩ := emit_frame_buffer dec (advance_cursor dec.frameBytes (fill_buffer s).2)
      refine ⟨?_, ?_⟩
      · rw [e1, e2]
        exact hbi1.1
      · rw [e2]
        exact hbi1.2
    · split
      · have hfi2 := fill_buffer_inv _ hbi1
        split
        · exact hfi2
        · exact hfi2
      · exact hbi1

/-! ## Claims -/

/-- C1: `audio_play_file(path)` stores the path as the pending path
(verbatim whenever it fits the 256-byte buffer) and raises the
new-file-pending flag — the Playing intent of the command channel.  On the
worker's next poll the request is consumed: the worker opens exactly that
path, and on a successful open the engine is playing, unpaused, and the
finished flag is cleared. -/
theorem C1_requestPlay (s : AudioState) (path : String) (openFor : String → Option Nat)
    (vol n : Nat) (hlen : path.length ≤ 255) (hopen : openFor path = some n) :
    (audio_play_file path s).pendingPath = path ∧
    (audio_play_file path s).newFilePending = true ∧
    (worker_poll openFor vol (audio_play_file path s)).2.2 = some path ∧
    (worker_poll openFor vol (audio_play_file path s)).1.playing = true ∧
    (worker_poll openFor vol (audio_play_file path s)).1.paused = false ∧
    (worker_poll openFor vol (audio_play_file path s)).1.songFinished = false := by
  simp [audio_play_file, worker_poll, start_new_file, strncpy_id path hlen, hopen]

/-- C1 witness: a concrete request issued at the initial state. -/
theorem C1_witness :
    (worker_poll (fun _ => some 2048) 100
      (audio_play_file "/sd/music/a.mp3" initState)).1.playing = true :=
  (C1_requestPlay initState "/sd/music/a.mp3" (fun _ => some 2048) 100 2048
    (by decide) rfl).2.2.2.1

/-- C3: whenever a refill leaves fewer than 4 unread bytes, the running
decode-loop iteration marks the song finished, clears the playing flag and
breaks out of the loop, emitting nothing, regardless of the decoder
responses still scripted. -/
theorem C3_eof_threshold (s : AudioState) (dec : FrameResult) (script : List FrameResult)
    (hplay : s.playing = true) (hpause : s.paused = false)
    (hstop : s.threadShouldStop = false) (h4 : (fill_buffer s).1 < 4) :
    (decode_loop (dec :: script) s).1.songFinished = true ∧
    (decode_loop (dec :: script) s).1.playing = false ∧
    (decode_loop (dec :: script) s).2 = [] := by
  simp [decode_loop, decode_body, hplay, hpause, hstop, h4]

/-- C3 witness: a buffer holding exactly 3 unread bytes with the file
exhausted is treated as end-of-stream. -/
theorem C3_witness :
    (decode_loop [⟨1152, 417, 2, 44100⟩]
      { initState with
          playing := true, fileOpen := true,
          bufferPos := 0, bufferLen := 3, fileRemaining := 0 }).1.songFinished = true :=
  (C3_eof_threshold _ _ [] rfl rfl rfl (by decide)).1

/-- C4: a stop request never raises the finished flag, and a decode loop
entered after the stop exits at its first guard check with the finished
flag still exactly what it was — a stopped stream is not marked finished. -/
theorem C4_stop_no_finish (s : AudioState) (script : List FrameResult) :
    ((audio_stop s).1).songFinished = s.songFinished ∧
    decode_loop script (audio_stop s).1 = ((audio_stop s).1, []) := by
  refine ⟨rfl, ?_⟩
  cases script with
  | nil => rfl
  | cons d rest => simp [decode_loop, audio_stop]

/-- C5: if a second play request arrives before the worker consumed the
first, the pending path holds only the later one, and the worker's next
poll opens exactly that later path (last-writer-wins, no queueing). -/
theorem C5_last_writer_wins (s : AudioState) (pA pB : String)
    (openFor : String → Option Nat) (vol : Nat) (hlen : pB.length ≤ 255) :
    (audio_play_file pB (audio_play_file pA s)).pendingPath = pB ∧
    (worker_poll openFor vol (audio_play_file pB (audio_play_file pA s))).2.2 = some pB := by
  simp [audio_play_file, worker_poll, strncpy_id pB hlen]

/-- C5 witness: two concrete back-to-back requests. -/
theorem C5_witness :
    (worker_poll (fun _ => some 512) 100
      (audio_play_file "/sd/music/b.mp3"
        (audio_play_file "/sd/music/a.mp3" initState))).2.2 = some "/sd/music/b.mp3" :=
  (C5_last_writer_wins initState "/sd/music/a.mp3" "/sd/music/b.mp3"
    (fun _ => some 512) 100 (by decide)).2

/-- C7: the reported position is `samplesWritten * 1000 / sampleRateHz`
truncated to an unsigned 32-bit value, with a guard returning 0 whenever
the stored sample rate is zero. -/
theorem C7_position_formula (s : AudioState) :
    audio_get_position_ms s = position_ms_spec s.samplesWritten s.sampleRate ∧
    (s.sampleRate = 0 → audio_get_position_ms s = 0) := by
  refine ⟨rfl, fun h => ?_⟩
  simp [audio_get_position_ms, h]

/-- C7 witness: the zero-rate guard at a concrete state. -/
theorem C7_witness :
    audio_get_position_ms { initState with sampleRate := 0, samplesWritten := 5 } = 0 :=
  (C7_position_formula { initState with sampleRate := 0, samplesWritten := 5 }).2 rfl

/-- C2 counterexample: play a fresh file whose first decodable frame
reports 48000 Hz.  `start_new_file` always issues one unconditional
stop / set-rate(44100) / start reset, and the first frame then issues a
second stop / set-rate(48000) / start because 48000 differs from
`g_sample_rate` — two sink reconfigurations for a single file, refuting
"exactly one sink reconfiguration occurs for that file, and only if R
differs from the rate the sink was previously configured to". -/
theorem C2_counterexample :
    countReconfigs
      ((worker_poll (fun _ => some 100000) 100
          (audio_play_file "/sd/music/song.mp3" initState)).2.1 ++
        (decode_loop [⟨1152, 417, 2, 48000⟩]
          (worker_poll (fun _ => some 100000) 100
            (audio_play_file "/sd/music/song.mp3" initState)).1).2) = 2 := by
  decide

/-- C2 (amended): opening a file always issues exactly one unconditional
stop / set-rate(44100) / start reset of the sink; the decode loop then
issues at most one further reconfiguration for that file (on its first
successful frame), and only to a rate that differs from `g_sample_rate`,
the last decoded rate (not necessarily the rate the sink was just reset
to). -/
theorem C2_one_reconfig_per_file (openBytes vol : Nat) (s : AudioState)
    (script : List FrameResult) :
    countReconfigs (start_new_file (some openBytes) vol s).2 = 1 ∧
    countReconfigs (decode_loop script (start_new_file (some openBytes) vol s).1).2 ≤ 1 ∧
    ∀ r, SinkEvent.setRate r ∈ (decode_loop script (start_new_file (some openBytes) vol s).1).2 →
      r ≠ (start_new_file (some openBytes) vol s).1.sampleRate := by
  have hfmt : (start_new_file (some openBytes) vol s).1.formatLogged = false := rfl
  have hb := decode_loop_reconfig_bound script (start_new_file (some openBytes) vol s).1 hfmt
  exact ⟨by simp [start_new_file, countReconfigs], hb.1, hb.2⟩

/-- C2 witness: the opening reset of a concrete file. -/
theorem C2_witness :
    countReconfigs (start_new_file (some 4096) 80 initState).2 = 1 :=
  (C2_one_reconfig_per_file 4096 80 initState []).1

/-- C6 counterexample: the position is returned as a `uint32_t`, so it
wraps modulo 2^32 ms.  At a Decoding state having accumulated
189408057753 samples at 44100 Hz the position reads 4294967295 ms; one
more decoded frame of 1152 samples pushes the true quotient past 2^32 and
the reported position drops to 26 ms — the position is not monotonically
non-decreasing across decode-loop iterations. -/
theorem C6_counterexample :
    (decode_loop [⟨1152, 417, 2, 44100⟩]
        { playing := true, paused := false, songFinished := false,
          samplesWritten := 189408057753, sampleRate := 44100, pendingPath := "",
          newFilePending := false, threadShouldStop := false, formatLogged := true,
          bufferPos := 0, bufferLen := 16384, fileOpen := true,
          fileRemaining := 0 }).1.playing = true ∧
    audio_get_position_ms
      (decode_loop [⟨1152, 417, 2, 44100⟩]
        { playing := true, paused := false, songFinished := false,
          samplesWritten := 189408057753, sampleRate := 44100, pendingPath := "",
          newFilePending := false, threadShouldStop := false, formatLogged := true,
          bufferPos := 0, bufferLen := 16384, fileOpen := true,
          fileRemaining := 0 }).1 <
    audio_get_position_ms
      { playing := true, paused := false, songFinished := false,
        samplesWritten := 189408057753, sampleRate := 44100, pendingPath := "",
        newFilePending := false, threadShouldStop := false, formatLogged := true,
        bufferPos := 0, bufferLen := 16384, fileOpen := true,
        fileRemaining := 0 } := by
  decide

/-- C6 (amended): the reported position is 0 immediately after a
successful Opening transition (`samplesWritten` is reset to 0), and it is
non-decreasing across decode-loop iterations as long as the position has
not yet reached the `uint32_t` range limit of 2^32 ms, at which point it
wraps.  The hypothesis `hinv` is the reachable-state invariant that the
sample counter is still 0 while the first frame of the file has not yet
been decoded (it is established by `start_new_file` and kept by every
iteration). -/
theorem C6_position_monotone (s : AudioState) (n vol : Nat) (dec : FrameResult)
    (hinv : s.formatLogged = false → s.samplesWritten = 0)
    (hbound : s.sampleRate ≠ 0 →
      (s.samplesWritten + dec.samples) * 1000 / s.sampleRate < 2 ^ 32) :
    audio_get_position_ms (start_new_file (some n) vol s).1 = 0 ∧
    audio_get_position_ms s ≤ audio_get_position_ms (decode_body dec s).1 := by
  constructor
  · show audio_get_position_ms
      { s with fileOpen := true, fileRemaining := n, bufferPos := 0, bufferLen := 0,
               samplesWritten := 0, songFinished := false, formatLogged := false,
               paused := false, playing := true } = 0
    unfold audio_get_position_ms
    split <;> simp
  · by_cases hfmt : s.formatLogged = true
    · -- format already logged: the rate is fixed, samples only accumulate
      have hshape := decode_body_shape dec s
      rcases hshape with ⟨-, -, hr, hw⟩ | ⟨-, -, -, hr, hw⟩
          | ⟨hf, -⟩ | ⟨hf, -⟩
      · unfold audio_get_position_ms
        rw [hr, hw]
      · unfold audio_get_position_ms
        rw [hr, hw]
        by_cases hz : s.sampleRate = 0
        · simp [hz]
        · rw [if_neg hz, if_neg hz]
          have hq : s.samplesWritten * 1000 / s.sampleRate ≤
              (s.samplesWritten + dec.samples) * 1000 / s.sampleRate :=
            Nat.div_le_div_right (Nat.mul_le_mul_right 1000 (Nat.le_add_right _ _))
          have hlt := hbound hz
          rw [Nat.mod_eq_of_lt (Nat.lt_of_le_of_lt hq hlt), Nat.mod_eq_of_lt hlt]
          exact hq
      · rw [hfmt] at hf
        exact absurd hf (by simp)
      · rw [hfmt] at hf
        exact absurd hf (by simp)
    · -- first frame of the file not yet decoded: position is still 0
      have hsw := hinv (by revert hfmt; cases s.formatLogged <;> simp)
      have h0 : audio_get_position_ms s = 0 := by
        unfold audio_get_position_ms
        rw [hsw]
        split <;> simp
      rw [h0]
      exact Nat.zero_le _

/-- C6 witness: position after opening a concrete file, and a concrete
monotone step from the initial state. -/
theorem C6_witness :
    audio_get_position_ms (start_new_file (some 3) 100 initState).1 = 0 :=
  (C6_position_monotone initState 3 100 ⟨1152, 417, 2, 44100⟩
    (fun _ => rfl) (by decide)).1

/-- C8 counterexample: `audio_pause` does not leave the output hardware
unchanged — it disables the amplifier (`asp_audio_set_amplifier(false)`),
refuting "leave ... the output hardware unchanged". -/
theorem C8_counterexample :
    (audio_pause initState).2 = [SinkEvent.setAmplifier false] ∧
    (audio_pause initState).2 ≠ ([] : List SinkEvent) := by
  exact ⟨rfl, by decide⟩

/-- C8 (amended): stop, pause and resume update only the transport-intent
fields of the engine state (stop also clears the pending-file flag), and
their only effect on the output hardware is the amplifier: stop and pause
disable it, resume enables it; resume is a complete no-op — state and
hardware — unless a session is playing. -/
theorem C8_intent_only (s : AudioState) :
    ((audio_stop s).1.playing = false ∧
      (audio_stop s).1.paused = false ∧
      (audio_stop s).1.newFilePending = false ∧
      (audio_stop s).1.songFinished = s.songFinished ∧
      (audio_stop s).1.samplesWritten = s.samplesWritten ∧
      (audio_stop s).1.sampleRate = s.sampleRate ∧
      (audio_stop s).1.pendingPath = s.pendingPath ∧
      (audio_stop s).1.threadShouldStop = s.threadShouldStop ∧
      (audio_stop s).1.formatLogged = s.formatLogged ∧
      (audio_stop s).1.bufferPos = s.bufferPos ∧
      (audio_stop s).1.bufferLen = s.bufferLen ∧
      (audio_stop s).1.fileOpen = s.fileOpen ∧
      (audio_stop s).1.fileRemaining = s.fileRemaining ∧
      (audio_stop s).2 = [SinkEvent.setAmplifier false]) ∧
    ((audio_pause s).1.paused = true ∧
      (audio_pause s).1.playing = s.playing ∧
      (audio_pause s).1.newFilePending = s.newFilePending ∧
      (audio_pause s).1.songFinished = s.songFinished ∧
      (audio_pause s).1.samplesWritten = s.samplesWritten ∧
      (audio_pause s).1.sampleRate = s.sampleRate ∧
      (audio_pause s).1.pendingPath = s.pendingPath ∧
      (audio_pause s).1.threadShouldStop = s.threadShouldStop ∧
      (audio_pause s).1.formatLogged = s.formatLogged ∧
      (audio_pause s).1.bufferPos = s.bufferPos ∧
      (audio_pause s).1.bufferLen = s.bufferLen ∧
      (audio_pause s).1.fileOpen = s.fileOpen ∧
      (audio_pause s).1.fileRemaining = s.fileRemaining ∧
      (audio_pause s).2 = [SinkEvent.setAmplifier false]) ∧
    (s.playing = false → audio_resume s = (s, [])) ∧
    (s.playing = true →
      (audio_resume s).1.paused = false ∧
      (audio_resume s).1.playing = s.playing ∧
      (audio_resume s).1.newFilePending = s.newFilePending ∧
      (audio_resume s).1.songFinished = s.songFinished ∧
      (audio_resume s).1.samplesWritten = s.samplesWritten ∧
      (audio_resume s).1.sampleRate = s.sampleRate ∧
      (audio_resume s).1.pendingPath = s.pendingPath ∧
      (audio_resume s).1.threadShouldStop = s.threadShouldStop ∧
      (audio_resume s).1.formatLogged = s.formatLogged ∧
      (audio_resume s).1.bufferPos = s.bufferPos ∧
      (audio_resume s).1.bufferLen = s.bufferLen ∧
      (audio_resume s).1.fileOpen = s.fileOpen ∧
      (audio_resume s).1.fileRemaining = s.fileRemaining ∧
      (audio_resume s).2 = [SinkEvent.setAmplifier true]) := by
  refine ⟨?_, ?_, ?_, ?_⟩
  · exact ⟨rfl, rfl, rfl, rfl, rfl, rfl, rfl, rfl, rfl, rfl, rfl, rfl, rfl, rfl⟩
  · exact ⟨rfl, rfl, rfl, rfl, rfl, rfl, rfl, rfl, rfl, rfl, rfl, rfl, rfl, rfl⟩
  · intro h
    simp [audio_resume, h]
  · intro h
    have he : audio_resume s = ({ s with paused := false }, [SinkEvent.setAmplifier true]) := by
      simp [audio_resume, h]
    rw [he]
    exact ⟨rfl, rfl, rfl, rfl, rfl, rfl, rfl, rfl, rfl, rfl, rfl, rfl, rfl, rfl⟩

/-- C8 witness: resume at a concrete playing state enables the amplifier. -/
theorem C8_witness :
    (audio_resume { initState with playing := true }).2 = [SinkEvent.setAmplifier true] :=
  ((C8_intent_only { initState with playing := true }).2.2.2 rfl).2.2.2.2.2.2.2.2.2.2.2.2.2

/-- C9: a state volume in [0,100] saved at shutdown is read back verbatim
at the next start-up, and whatever int32 value sits in the settings store,
the volume adopted at start-up always lies in [0,100] (out-of-range stored
values are replaced by the in-range default 100). -/
theorem C9_volume_round_trip (v : Nat) (w : Int) :
    (v ≤ 100 → volume_round_trip v = v) ∧
    volume_round_trip v ≤ 100 ∧
    plugin_init_volume (some w) ≤ 100 := by
  have hv : volume_round_trip v =
      if 0 ≤ (v : Int) ∧ (v : Int) ≤ 100 then (v : Int).toNat else 100 := rfl
  have hw : plugin_init_volume (some w) = if 0 ≤ w ∧ w ≤ 100 then w.toNat else 100 := rfl
  refine ⟨fun h => ?_, ?_, ?_⟩
  · rw [hv]
    split <;> omega
  · rw [hv]
    split <;> omega
  · rw [hw]
    split <;> omega

/-- C9 witness: a concrete in-range round trip. -/
theorem C9_witness : volume_round_trip 73 = 73 :=
  (C9_volume_round_trip 73 0).1 (by decide)

/-- C10: the ingest-buffer invariant `buffer_pos ≤ buffer_len ≤ 16384` is
preserved by `fill_buffer` and by every decode-loop iteration (granted
the decoder never claims to consume more than the unread bytes it was
given), and every `fill_buffer` call on an open file leaves the read
cursor at 0 and returns exactly `buffer_len`. -/
theorem C10_buffer_invariant (s : AudioState) (dec : FrameResult) :
    (BufInv s → BufInv (fill_buffer s).2) ∧
    (s.fileOpen = true →
      (fill_buffer s).2.bufferPos = 0 ∧ (fill_buffer s).1 = (fill_buffer s).2.bufferLen) ∧
    (BufInv s → dec.frameBytes ≤ (fill_buffer s).1 → BufInv (decode_body dec s).1) :=
  ⟨fill_buffer_inv s, fill_buffer_pos_zero s, decode_body_inv dec s⟩

/-- C10 witness: the invariant after a concrete refill of a fresh state
on a 10000-byte file. -/
theorem C10_witness :
    BufInv (fill_buffer { initState with fileOpen := true, fileRemaining := 10000 }).2 :=
  (C10_buffer_invariant { initState with fileOpen := true, fileRemaining := 10000 }
    ⟨1152, 417, 2, 44100⟩).1 (by decide)

end MusicPlayer
